import Mathlib

/-!
Shallow embedding of the subscription forwarding engine of `src/bot.py`
(twittogram).  Python dicts are modelled as insertion-ordered association
lists, Python strings as `String`, and tweet ids as `Int` (the code
compares them via `int(x.id)`).  External boundaries (the HTTP fetch, the
Telegram sink, the json stdlib text layer) are treated as ports; the
logic between them is translated statement by statement.
-/

namespace Twittogram

/-- A fetched item (a `tweety` `Tweet`): id (compared as integer), text,
and the list of media URLs. -/
structure Tweet where
  id : Int
  text : String
  media : List String
deriving DecidableEq

/-- An element of the `to_send` list of `forward_tweets`, the tuple
`(chat, tweet, user_id)` restricted to a single chat. -/
structure SendEntry where
  tweet : Tweet
  userId : Int
deriving DecidableEq

/-- The `Chat` dataclass of `bot.py`: `last_sent_id` maps `str(user_id)`
to the last delivered id, `subscriptions` maps a subscription name to the
feed's user id, `filters` maps a subscription name to its keyword terms,
and `awaiting_filter` is the pending-input marker (empty string = idle). -/
structure Chat where
  id : Int
  last_sent_id : List (String × Int)
  subscriptions : List (String × Int)
  filters : List (String × List String)
  awaiting_filter : String
deriving DecidableEq

/-- Python dict lookup `m.get(k)` on an insertion-ordered dict. -/
def lookupA {β : Type} : List (String × β) → String → Option β
  | [], _ => none
  | (k', v) :: t, k => if k' = k then some v else lookupA t k

/-- Python dict lookup with default, `m.get(k, d)`. -/
def lookupD {β : Type} (m : List (String × β)) (k : String) (d : β) : β :=
  (lookupA m k).getD d

/-- Python dict assignment `m[k] = v` on an insertion-ordered dict. -/
def setA {β : Type} : List (String × β) → String → β → List (String × β)
  | [], k, v => [(k, v)]
  | (k', v') :: t, k, v => if k' = k then (k, v) :: t else (k', v') :: setA t k v

/-- `chat.filters.get(user_name, [])`. -/
def lookupF (m : List (String × List String)) (k : String) : List String :=
  lookupD m k []

/-- `str(user_id)`: the key under which `last_sent_id` stores a cursor. -/
def cursorKey (u : Int) : String := toString u

/-- Python `str.lower` (character-wise model via `Char.toLower`). -/
def pyLower (s : String) : String := String.mk (s.data.map Char.toLower)

/-- Boolean prefix test on character lists. -/
def isPrefixB : List Char → List Char → Bool
  | [], _ => true
  | _ :: _, [] => false
  | a :: as, b :: bs => a == b && isPrefixB as bs

/-- Boolean substring occurrence test on character lists. -/
def containsSub (needle : List Char) : List Char → Bool
  | [] => needle.isEmpty
  | b :: bs => isPrefixB needle (b :: bs) || containsSub needle bs

/-- Python `needle in hay` for strings. -/
def strContains (hay needle : String) : Bool := containsSub needle.data hay.data

/-- The three `filter` steps of `forward_tweets` (bot.py lines 113-116):
keep tweets with non-empty media, with id strictly above the cursor, and
matching the keyword filters (an empty filter list passes everything,
otherwise some term must occur case-insensitively in the text). -/
def acceptTweets (filters : List String) (last_sent : Int) (tweets : List Tweet) : List Tweet :=
  ((tweets.filter (fun x => !x.media.isEmpty)).filter
      (fun x => decide (last_sent < x.id))).filter
    (fun x => filters.isEmpty || filters.any (fun term => strContains (pyLower x.text) (pyLower term)))

/-- `chat.last_sent_id.get(str(user_id), 0)` for a `(name, user_id)`
subscription pair: the dedup cursor is keyed by `str(user_id)`, the name
is not consulted. -/
def pairCursor (chat : Chat) (sub : String × Int) : Int :=
  lookupD chat.last_sent_id (cursorKey sub.2) 0

/-- The `to_send` entries contributed by one `(tweets, (user_name,
user_id))` pair of the `zip` in `forward_tweets`. -/
def pairEntries (chat : Chat) (p : List Tweet × (String × Int)) : List SendEntry :=
  (acceptTweets (lookupF chat.filters p.2.1) (pairCursor chat p.2) p.1).map
    (fun t => SendEntry.mk t p.2.2)

/-- The whole `to_send` list built for one chat in one tick. -/
def buildToSend (chat : Chat) (results : List (List Tweet)) : List SendEntry :=
  ((results.zip chat.subscriptions).map (pairEntries chat)).flatten

/-- One delivery step (bot.py line 123): after sending, the cursor
becomes `max(int(tweet.id), chat.last_sent_id.get(str(user_id), 0))`. -/
def deliverStep (cursors : List (String × Int)) (e : SendEntry) : List (String × Int) :=
  setA cursors (cursorKey e.userId) (max e.tweet.id (lookupD cursors (cursorKey e.userId) 0))

/-- The delivery loop over `reversed(to_send)` (bot.py lines 121-123). -/
def deliverAll (cursors : List (String × Int)) (entries : List SendEntry) : List (String × Int) :=
  entries.foldl deliverStep cursors

/-- One tick of `forward_tweets` for one chat: build `to_send`, deliver
it in reversed order, commit the cursor updates.  Returns the updated
chat and the delivery order.  (In the real loop `to_send` concatenates
the blocks of all chats before the global `reversed`; restricted to one
chat the delivered subsequence is exactly the reversal of that chat's
block, which is what is modelled here.) -/
def tickChat (chat : Chat) (results : List (List Tweet)) : Chat × List SendEntry :=
  let order := (buildToSend chat results).reverse
  ({ chat with last_sent_id := deliverAll chat.last_sent_id order }, order)

/-- Several consecutive ticks; `fetches` lists, tick by tick, the fetch
results for the chat's subscriptions. -/
def runChat : Chat → List (List (List Tweet)) → Chat × List (List SendEntry)
  | c, [] => (c, [])
  | c, r :: rest =>
    let t := tickChat c r
    let u := runChat t.1 rest
    (u.1, t.2 :: u.2)

/-- The chat state seen at the start of tick `n` of a run. -/
def stateBefore : Chat → List (List (List Tweet)) → Nat → Chat
  | c, _, 0 => c
  | c, [], _ + 1 => c
  | c, r :: rest, n + 1 => stateBefore (tickChat c r).1 rest n

/-- The delivery order of tick `n` of a run. -/
def tickEntriesAt : Chat → List (List (List Tweet)) → Nat → List SendEntry
  | _, [], _ => []
  | c, r :: _, 0 => (tickChat c r).2
  | c, r :: rest, n + 1 => tickEntriesAt (tickChat c r).1 rest n

/-- Cursor evolution observed at one key along a delivery list. -/
def stepf (key : String) (a : Int) (e : SendEntry) : Int :=
  if cursorKey e.userId = key then max a e.tweet.id else a

/-- Maximum id (0 when none) among delivered entries whose cursor key is
`key`. -/
def maxDeliveredKey (key : String) (entries : List SendEntry) : Int :=
  ((entries.filter (fun e => decide (cursorKey e.userId = key))).map (fun e => e.tweet.id)).foldl max 0

/-- `asyncio.gather` over the per-subscription fetches of one chat with
default arguments: the awaited result is the list of all results when
every fetch succeeds, and raises the first raised exception otherwise
(the results of the remaining fetches are discarded). -/
def gatherE : List (Except Unit (List Tweet)) → Except Unit (List (List Tweet))
  | [] => Except.ok []
  | Except.error e :: _ => Except.error e
  | Except.ok r :: rest =>
    match gatherE rest with
    | Except.error e => Except.error e
    | Except.ok rs => Except.ok (r :: rs)

/-- The `to_send`-building phase of `forward_tweets` across all chats,
with fallible fetches: the chat loop runs until the first chat whose
`asyncio.gather` raises, and that exception propagates out of
`forward_tweets`, discarding the whole tick. -/
def forwardTickE : List (Chat × List (Except Unit (List Tweet))) → Except Unit (List SendEntry)
  | [] => Except.ok []
  | (c, rs) :: rest =>
    match gatherE rs with
    | Except.error e => Except.error e
    | Except.ok res =>
      match forwardTickE rest with
      | Except.error e => Except.error e
      | Except.ok entries => Except.ok (buildToSend c res ++ entries)

/-- The exception classes discriminated by `subscription_loop`
(bot.py lines 131-141). -/
inductive LoopExc where
  | tryAgain
  | cancelled
  | other
deriving DecidableEq

/-- What `subscription_loop` does when `forward_tweets` raises: a pair of
(keep looping?, seconds slept before the next attempt).  `TryAgain` is
swallowed with no sleep, `CancelledError` breaks the loop, anything else
is logged and followed by `asyncio.sleep(1)`. -/
def loopAction : LoopExc → Bool × Nat
  | LoopExc.tryAgain => (true, 0)
  | LoopExc.cancelled => (false, 0)
  | LoopExc.other => (true, 1)

/-- Durable-file contents reachable if the process crashes during
`serialize` (bot.py lines 51-53): `open(CHATS_PATH, "w")` truncates the
file in place, then `json.dump` streams the new snapshot into it, so a
crash leaves some prefix of the new contents (the pre-write snapshot is
gone as soon as the file is opened). -/
def serializeCrashStates (newContent : List Char) : List (List Char) :=
  (List.range (newContent.length + 1)).map (fun k => newContent.take k)

/-- The JSON values produced by `json.dump` with `EnhancedJSONEncoder`
on the `chats` map (ints, strings, arrays, insertion-ordered objects). -/
inductive Json where
  | num (n : Int)
  | str (s : String)
  | arr (elems : List Json)
  | obj (fields : List (String × Json))

/-- Failure-propagating elementwise decoding (the dict and list
comprehensions of `deserialize`). -/
def mapO {α β : Type} (g : α → Option β) : List α → Option (List β)
  | [] => some []
  | a :: as =>
    match g a with
    | none => none
    | some b =>
      match mapO g as with
      | none => none
      | some bs => some (b :: bs)

/-- `asdict` on one `Chat` dataclass, as dumped by `serialize`. -/
def encodeChat (c : Chat) : Json :=
  Json.obj [("id", Json.num c.id),
            ("last_sent_id", Json.obj (c.last_sent_id.map (fun p => (p.1, Json.num p.2)))),
            ("subscriptions", Json.obj (c.subscriptions.map (fun p => (p.1, Json.num p.2)))),
            ("filters", Json.obj (c.filters.map (fun p => (p.1, Json.arr (p.2.map Json.str))))),
            ("awaiting_filter", Json.str c.awaiting_filter)]

/-- Decoding one entry of the persisted `last_sent_id`/`subscriptions`
objects back to a string-keyed integer. -/
def decodeIntEntry : String × Json → Option (String × Int)
  | (k, Json.num n) => some (k, n)
  | _ => none

/-- Decoding one entry of the persisted `filters` object back to a
string-keyed list of terms. -/
def decodeFilterEntry : String × Json → Option (String × List String)
  | (k, Json.arr xs) =>
    match mapO (fun j => match j with | Json.str s => some s | _ => none) xs with
    | none => none
    | some l => some (k, l)
  | _ => none

/-- `Chat(**v)` applied to one decoded JSON object, as `deserialize`
does after `json.load` (the shape `asdict` produces). -/
def decodeChat : Json → Option Chat
  | Json.obj [("id", Json.num i), ("last_sent_id", Json.obj ls),
              ("subscriptions", Json.obj subs), ("filters", Json.obj fls),
              ("awaiting_filter", Json.str aw)] =>
    match mapO decodeIntEntry ls, mapO decodeIntEntry subs, mapO decodeFilterEntry fls with
    | some ls', some subs', some fls' =>
      some { id := i, last_sent_id := ls', subscriptions := subs', filters := fls',
             awaiting_filter := aw }
    | _, _, _ => none
  | _ => none

/-- `serialize`'s view of the whole `chats` map as a JSON object. -/
def encodeChats (m : List (String × Chat)) : Json :=
  Json.obj (m.map (fun p => (p.1, encodeChat p.2)))

/-- `deserialize`'s `chats = \x7bk: Chat(**v) for k, v in json.load(fout).items()\x7d`. -/
def decodeChats : Json → Option (List (String × Chat))
  | Json.obj fields => mapO (fun p => (decodeChat p.2).map (fun c => (p.1, c))) fields
  | _ => none

/-- The `add_filter` callback handler (bot.py lines 186-191): record
which subscription is awaiting a filter term. -/
def add_filter (chat : Chat) (subscription : String) : Chat :=
  { chat with awaiting_filter := subscription }

/-- The free-text `handle_input` handler (bot.py lines 240-255): when a
filter is awaited the text becomes a new filter term for that
subscription and the marker is cleared; otherwise the text becomes a new
subscription resolved (externally) to `resolvedId`. -/
def handle_input (chat : Chat) (text : String) (resolvedId : Int) : Chat :=
  if chat.awaiting_filter ≠ "" then
    { chat with
        filters := setA chat.filters chat.awaiting_filter
          (lookupF chat.filters chat.awaiting_filter ++ [text]),
        awaiting_filter := "" }
  else
    { chat with subscriptions := setA chat.subscriptions text resolvedId }

theorem lookupA_setA_self {β : Type} (m : List (String × β)) (k : String) (v : β) :
    lookupA (setA m k v) k = some v := by
  induction m with
  | nil => simp [setA, lookupA]
  | cons p t ih =>
    obtain ⟨a, b⟩ := p
    by_cases h : a = k
    · simp [setA, h, lookupA]
    · simp [setA, h, lookupA, ih]

theorem lookupA_setA_ne {β : Type} (m : List (String × β)) (k k' : String) (v : β)
    (h : k ≠ k') : lookupA (setA m k v) k' = lookupA m k' := by
  induction m with
  | nil => simp [setA, lookupA, h]
  | cons p t ih =>
    obtain ⟨a, b⟩ := p
    by_cases ha : a = k
    · subst ha; simp [setA, lookupA, h]
    · simp [setA, ha, lookupA, ih]

theorem lookupD_deliverStep (cs : List (String × Int)) (e : SendEntry) (key : String) :
    lookupD (deliverStep cs e) key 0 = stepf key (lookupD cs key 0) e := by
  by_cases h : cursorKey e.userId = key
  · rw [← h]
    show lookupD (setA cs (cursorKey e.userId) _) (cursorKey e.userId) 0 = _
    simp [lookupD, lookupA_setA_self, stepf, max_comm]
  · show lookupD (setA cs (cursorKey e.userId) _) key 0 = _
    simp [lookupD, lookupA_setA_ne _ _ _ _ h, stepf, h]

theorem lookupD_deliverAll (es : List SendEntry) (cs : List (String × Int)) (key : String) :
    lookupD (deliverAll cs es) key 0 = es.foldl (stepf key) (lookupD cs key 0) := by
  induction es generalizing cs with
  | nil => rfl
  | cons e t ih =>
    show lookupD (deliverAll (deliverStep cs e) t) key 0 = _
    rw [ih, lookupD_deliverStep]
    rfl

theorem le_foldl_stepf (es : List SendEntry) (key : String) (a : Int) :
    a ≤ es.foldl (stepf key) a := by
  induction es generalizing a with
  | nil => exact le_refl a
  | cons e t ih =>
    refine le_trans ?_ (ih (stepf key a e))
    unfold stepf
    split
    · exact le_max_left _ _
    · exact le_refl _

theorem id_le_foldl_stepf (es : List SendEntry) (e : SendEntry) :
    e ∈ es → ∀ a : Int, e.tweet.id ≤ es.foldl (stepf (cursorKey e.userId)) a := by
  induction es with
  | nil => intro he; cases he
  | cons x t ih =>
    intro he a
    rcases List.mem_cons.mp he with h | h
    · subst h
      have h1 : stepf (cursorKey e.userId) a e = max a e.tweet.id := by simp [stepf]
      show e.tweet.id ≤ t.foldl (stepf (cursorKey e.userId)) (stepf (cursorKey e.userId) a e)
      rw [h1]
      exact le_trans (le_max_right _ _) (le_foldl_stepf t _ _)
    · exact ih h _

theorem foldl_stepf_eq_max (es : List SendEntry) (key : String) :
    ∀ a : Int, es.foldl (stepf key) a
      = ((es.filter (fun e => decide (cursorKey e.userId = key))).map
          (fun e => e.tweet.id)).foldl max a := by
  induction es with
  | nil => intro a; rfl
  | cons e t ih =>
    intro a
    by_cases h : cursorKey e.userId = key
    · simp [stepf, h, List.filter_cons, ih]
    · simp [stepf, h, List.filter_cons, ih]

theorem maxDeliveredKey_eq_foldl (key : String) (es : List SendEntry) :
    maxDeliveredKey key es = es.foldl (stepf key) 0 := by
  rw [maxDeliveredKey, foldl_stepf_eq_max]

theorem tickChat_cursor_mono (c : Chat) (r : List (List Tweet)) (key : String) :
    lookupD c.last_sent_id key 0 ≤ lookupD (tickChat c r).1.last_sent_id key 0 := by
  show lookupD c.last_sent_id key 0
      ≤ lookupD (deliverAll c.last_sent_id ((buildToSend c r).reverse)) key 0
  rw [lookupD_deliverAll]
  exact le_foldl_stepf _ _ _

theorem runChat_cursor (fs : List (List (List Tweet))) (c : Chat) (key : String) :
    lookupD (runChat c fs).1.last_sent_id key 0
      = ((runChat c fs).2.flatten).foldl (stepf key) (lookupD c.last_sent_id key 0) := by
  induction fs generalizing c with
  | nil => rfl
  | cons r rest ih =>
    have h1 : lookupD (tickChat c r).1.last_sent_id key 0
        = ((tickChat c r).2).foldl (stepf key) (lookupD c.last_sent_id key 0) := by
      show lookupD (deliverAll c.last_sent_id ((buildToSend c r).reverse)) key 0
          = ((buildToSend c r).reverse).foldl (stepf key) (lookupD c.last_sent_id key 0)
      rw [lookupD_deliverAll]
    show lookupD (runChat (tickChat c r).1 rest).1.last_sent_id key 0
        = (((tickChat c r).2 :: (runChat (tickChat c r).1 rest).2).flatten).foldl
            (stepf key) (lookupD c.last_sent_id key 0)
    rw [List.flatten_cons, List.foldl_append, ih, h1]

theorem stateBefore_cursor_mono_succ (fs : List (List (List Tweet))) (c : Chat)
    (n : Nat) (key : String) :
    lookupD (stateBefore c fs n).last_sent_id key 0
      ≤ lookupD (stateBefore c fs (n + 1)).last_sent_id key 0 := by
  induction fs generalizing c n with
  | nil => cases n <;> exact le_refl _
  | cons r rest ih =>
    cases n with
    | zero =>
      simpa [stateBefore] using tickChat_cursor_mono c r key
    | succ m => exact ih (tickChat c r).1 m

theorem stateBefore_cursor_mono (c : Chat) (fs : List (List (List Tweet)))
    (key : String) {j k : Nat} (h : j ≤ k) :
    lookupD (stateBefore c fs j).last_sent_id key 0
      ≤ lookupD (stateBefore c fs k).last_sent_id key 0 := by
  induction k with
  | zero =>
    cases Nat.le_zero.mp h
    exact le_refl _
  | succ m ih =>
    rcases Nat.eq_or_lt_of_le h with rfl | hlt
    · exact le_refl _
    · exact le_trans (ih (Nat.lt_succ_iff.mp hlt)) (stateBefore_cursor_mono_succ fs c m key)

theorem mem_acceptTweets (fs : List String) (c : Int) (tweets : List Tweet) (t : Tweet) :
    t ∈ acceptTweets fs c tweets ↔
      t ∈ tweets ∧ t.media ≠ [] ∧ c < t.id ∧
        (fs = [] ∨ ∃ term ∈ fs, strContains (pyLower t.text) (pyLower term) = true) := by
  simp only [acceptTweets, List.mem_filter, List.isEmpty_iff, List.any_eq_true,
    Bool.or_eq_true, Bool.not_eq_true', List.isEmpty_eq_false, decide_eq_true_eq,
    List.isEmpty_eq_true]
  tauto

theorem acceptTweets_sublist (fs : List String) (c : Int) (tweets : List Tweet) :
    List.Sublist (acceptTweets fs c tweets) tweets :=
  List.Sublist.trans (List.filter_sublist _)
    (List.Sublist.trans (List.filter_sublist _) (List.filter_sublist _))

theorem mem_buildToSend (chat : Chat) (results : List (List Tweet)) (e : SendEntry) :
    e ∈ buildToSend chat results ↔
      ∃ p ∈ results.zip chat.subscriptions,
        e.userId = p.2.2 ∧
          e.tweet ∈ acceptTweets (lookupF chat.filters p.2.1) (pairCursor chat p.2) p.1 := by
  constructor
  · intro he
    rcases List.mem_flatten.mp he with ⟨l, hl, hel⟩
    rcases List.mem_map.mp hl with ⟨p, hp, rfl⟩
    rcases List.mem_map.mp hel with ⟨t, ht, rfl⟩
    exact ⟨p, hp, rfl, ht⟩
  · intro ⟨p, hp, hu, ht⟩
    refine List.mem_flatten.mpr ⟨pairEntries chat p, List.mem_map.mpr ⟨p, hp, rfl⟩, ?_⟩
    cases e with
    | mk tw u =>
      cases hu
      exact List.mem_map.mpr ⟨tw, ht, rfl⟩

theorem mem_buildToSend_cursor_lt (chat : Chat) (results : List (List Tweet)) (e : SendEntry)
    (he : e ∈ buildToSend chat results) :
    lookupD chat.last_sent_id (cursorKey e.userId) 0 < e.tweet.id := by
  rcases (mem_buildToSend chat results e).mp he with ⟨p, _, hu, ht⟩
  have := ((mem_acceptTweets _ _ _ _).mp ht).2.2.1
  rw [pairCursor] at this
  rw [hu]
  exact this

theorem mem_buildToSend_media (chat : Chat) (results : List (List Tweet)) (e : SendEntry)
    (he : e ∈ buildToSend chat results) : e.tweet.media ≠ [] := by
  rcases (mem_buildToSend chat results e).mp he with ⟨p, _, _, ht⟩
  exact ((mem_acceptTweets _ _ _ _).mp ht).2.1

theorem tickEntriesAt_cursor_lt :
    ∀ (fs : List (List (List Tweet))) (c : Chat) (n : Nat) (e : SendEntry),
      e ∈ tickEntriesAt c fs n →
      lookupD (stateBefore c fs n).last_sent_id (cursorKey e.userId) 0 < e.tweet.id := by
  intro fs
  induction fs with
  | nil => intro c n e he; cases he
  | cons r rest ih =>
    intro c n e he
    cases n with
    | zero =>
      have hm : e ∈ buildToSend c r := by
        have h2 : e ∈ (buildToSend c r).reverse := he
        exact List.mem_reverse.mp h2
      exact mem_buildToSend_cursor_lt c r e hm
    | succ m => exact ih (tickChat c r).1 m e he

theorem tickChat_order_blocks (chat : Chat) (results : List (List Tweet)) :
    (tickChat chat results).2
      = ((results.zip chat.subscriptions).map
          (fun p => (pairEntries chat p).reverse)).reverse.flatten := by
  show (buildToSend chat results).reverse = _
  rw [buildToSend, List.reverse_flatten, List.map_map]
  rfl

theorem pairEntries_reverse_ascending (chat : Chat) (p : List Tweet × (String × Int))
    (hp : p.1.Pairwise (fun a b => b.id < a.id)) :
    ((pairEntries chat p).reverse.map (fun e => e.tweet.id)).Pairwise (· < ·) := by
  have h1 : (acceptTweets (lookupF chat.filters p.2.1) (pairCursor chat p.2) p.1).Pairwise
      (fun a b => b.id < a.id) :=
    hp.sublist (acceptTweets_sublist _ _ _)
  have h2 : ((acceptTweets (lookupF chat.filters p.2.1) (pairCursor chat p.2) p.1).reverse).Pairwise
      (fun a b => a.id < b.id) := List.pairwise_reverse.mpr h1
  rw [pairEntries, ← List.map_reverse, List.map_map]
  exact (List.pairwise_map).mpr h2

theorem mapO_map_eq_some {α β : Type} (l : List α) (f : α → β) (g : β → Option α)
    (h : ∀ x ∈ l, g (f x) = some x) : mapO g (l.map f) = some l := by
  induction l with
  | nil => rfl
  | cons a t ih =>
    show mapO g (f a :: t.map f) = some (a :: t)
    rw [mapO, h a (List.mem_cons_self a t), ih (fun x hx => h x (List.mem_cons_of_mem a hx))]

theorem decodeIntEntry_enc (p : String × Int) :
    decodeIntEntry (p.1, Json.num p.2) = some p := by
  obtain ⟨k, v⟩ := p
  rfl

theorem decodeFilterEntry_enc (p : String × List String) :
    decodeFilterEntry (p.1, Json.arr (p.2.map Json.str)) = some p := by
  obtain ⟨k, l⟩ := p
  show decodeFilterEntry (k, Json.arr (l.map Json.str)) = some (k, l)
  simp only [decodeFilterEntry]
  rw [mapO_map_eq_some l Json.str _ (fun s _ => rfl)]

theorem decodeChat_encodeChat (c : Chat) : decodeChat (encodeChat c) = some c := by
  simp only [encodeChat, decodeChat]
  rw [mapO_map_eq_some c.last_sent_id _ decodeIntEntry (fun x _ => decodeIntEntry_enc x),
      mapO_map_eq_some c.subscriptions _ decodeIntEntry (fun x _ => decodeIntEntry_enc x),
      mapO_map_eq_some c.filters _ decodeFilterEntry (fun x _ => decodeFilterEntry_enc x)]

theorem decodeChats_encodeChats (m : List (String × Chat)) :
    decodeChats (encodeChats m) = some m := by
  rw [encodeChats, decodeChats]
  exact mapO_map_eq_some m _ _ (fun p _ => by rw [decodeChat_encodeChat p.2]; rfl)

theorem gatherE_error (rs : List (Except Unit (List Tweet)))
    (h : Except.error () ∈ rs) : gatherE rs = Except.error () := by
  induction rs with
  | nil => cases h
  | cons r t ih =>
    rcases List.mem_cons.mp h with rfl | h2
    · rfl
    · cases r with
      | error e => cases e; rfl
      | ok v => simp only [gatherE, ih h2]

theorem forwardTickE_error (l : List (Chat × List (Except Unit (List Tweet))))
    (h : ∃ p ∈ l, Except.error () ∈ p.2) : forwardTickE l = Except.error () := by
  induction l with
  | nil => rcases h with ⟨p, hp, _⟩; cases hp
  | cons q t ih =>
    obtain ⟨c, rs⟩ := q
    rcases h with ⟨p, hp, he⟩
    rcases List.mem_cons.mp hp with rfl | hp2
    · simp only [forwardTickE, gatherE_error rs he]
    · simp only [forwardTickE, ih ⟨p, hp2, he⟩]
      cases gatherE rs with
      | error e => cases e; rfl
      | ok v => rfl

theorem nil_mem_serializeCrashStates (newContent : List Char) :
    [] ∈ serializeCrashStates newContent := by
  rw [serializeCrashStates]
  exact List.mem_map.mpr ⟨0, List.mem_range.mpr (Nat.succ_pos _), rfl⟩

theorem serializeCrashStates_prefix (newContent s : List Char)
    (hs : s ∈ serializeCrashStates newContent) : List.IsPrefix s newContent := by
  rcases List.mem_map.mp hs with ⟨k, _, rfl⟩
  exact List.take_prefix k newContent

/-- A media-bearing tweet with id `i`, used as concrete input. -/
def exTweet (i : Int) : Tweet := { id := i, text := "x", media := ["u"] }

/-- A chat with one subscription `alice` on feed 7 and cursor 25. -/
def exChat : Chat :=
  { id := 1, last_sent_id := [("7", 25)], subscriptions := [("alice", 7)],
    filters := [], awaiting_filter := "" }

/-- A chat with one subscription `alice` on feed 7 and no cursor yet. -/
def exChatW : Chat :=
  { id := 1, last_sent_id := [], subscriptions := [("alice", 7)],
    filters := [], awaiting_filter := "" }

/-- A chat with two subscriptions `a` (feed 1) and `b` (feed 2). -/
def cexChat : Chat :=
  { id := 2, last_sent_id := [], subscriptions := [("a", 1), ("b", 2)],
    filters := [], awaiting_filter := "" }

/-- An idle chat with one subscription and one existing filter term. -/
def exIdleChat : Chat :=
  { id := 3, last_sent_id := [], subscriptions := [("alice", 7)],
    filters := [("alice", ["old"])], awaiting_filter := "" }

/-- C1: after a successful delivery of an item with id `i`, the cursor of
its subscription key becomes `max(c, i)` where `c` is the cursor right
before that delivery (bot.py line 123); across ticks the cursor never
decreases; and a run starting with no cursor (absent = 0) ends with the
cursor equal to the maximum id ever delivered for that subscription key. -/
theorem c1_cursor_monotone_equals_max_delivered :
    (∀ (cs : List (String × Int)) (e : SendEntry),
        lookupD (deliverStep cs e) (cursorKey e.userId) 0
          = max (lookupD cs (cursorKey e.userId) 0) e.tweet.id)
  ∧ (∀ (c : Chat) (fs : List (List (List Tweet))) (key : String) (n : Nat),
        lookupD (stateBefore c fs n).last_sent_id key 0
          ≤ lookupD (stateBefore c fs (n + 1)).last_sent_id key 0)
  ∧ (∀ (c : Chat) (fs : List (List (List Tweet))) (key : String),
        lookupD c.last_sent_id key 0 = 0 →
        lookupD (runChat c fs).1.last_sent_id key 0
          = maxDeliveredKey key (runChat c fs).2.flatten) := by
  refine ⟨?_, ?_, ?_⟩
  · intro cs e
    rw [lookupD_deliverStep]
    simp [stepf]
  · intro c fs key n
    exact stateBefore_cursor_mono_succ fs c n key
  · intro c fs key h
    rw [runChat_cursor, h, maxDeliveredKey_eq_foldl]

theorem c1_witness :
    lookupD (runChat exChatW [[[exTweet 50, exTweet 40, exTweet 30]]]).1.last_sent_id "7" 0
      = maxDeliveredKey "7" (runChat exChatW [[[exTweet 50, exTweet 40, exTweet 30]]]).2.flatten :=
  c1_cursor_monotone_equals_max_delivered.2.2 exChatW [[[exTweet 50, exTweet 40, exTweet 30]]]
    "7" rfl

/-- C2: the dedup step retains only items with id strictly above the
subscription's cursor (bot.py line 114), and no item with id at or below
the cursor observed at the start of tick `j` is ever delivered in tick
`j` or any later tick `k`. -/
theorem c2_dedup_no_redelivery :
    (∀ (fs : List String) (c : Int) (tweets : List Tweet) (t : Tweet),
        t ∈ acceptTweets fs c tweets → c < t.id)
  ∧ (∀ (chat : Chat) (fetches : List (List (List Tweet))) (j k : Nat), j ≤ k →
        ∀ e ∈ tickEntriesAt chat fetches k,
          lookupD (stateBefore chat fetches j).last_sent_id (cursorKey e.userId) 0
            < e.tweet.id) := by
  refine ⟨?_, ?_⟩
  · intro fs c tweets t ht
    exact ((mem_acceptTweets fs c tweets t).mp ht).2.2.1
  · intro chat fetches j k hjk e he
    exact lt_of_le_of_lt (stateBefore_cursor_mono chat fetches _ hjk)
      (tickEntriesAt_cursor_lt fetches chat k e he)

theorem c2_witness :
    lookupD (stateBefore exChat [[[exTweet 50, exTweet 40, exTweet 30]]] 0).last_sent_id
        (cursorKey (SendEntry.mk (exTweet 30) 7).userId) 0
      < (SendEntry.mk (exTweet 30) 7).tweet.id :=
  c2_dedup_no_redelivery.2 exChat [[[exTweet 50, exTweet 40, exTweet 30]]] 0 0 (le_refl 0)
    (SendEntry.mk (exTweet 30) 7) (by decide)

/-- C3: an item is accepted for delivery exactly when it was fetched, has
non-empty media, has id above the cursor, and either the filter list is
empty or some term occurs case-insensitively in its text (bot.py lines
113-116); in particular every entry that reaches `to_send` carries
non-empty media. -/
theorem c3_media_and_filters :
    (∀ (fs : List String) (c : Int) (tweets : List Tweet) (t : Tweet),
        t ∈ acceptTweets fs c tweets ↔
          t ∈ tweets ∧ t.media ≠ [] ∧ c < t.id ∧
            (fs = [] ∨ ∃ term ∈ fs, strContains (pyLower t.text) (pyLower term) = true))
  ∧ (∀ (chat : Chat) (results : List (List Tweet)) (e : SendEntry),
        e ∈ buildToSend chat results → e.tweet.media ≠ []) :=
  ⟨mem_acceptTweets, mem_buildToSend_media⟩

theorem c3_witness :
    (SendEntry.mk (exTweet 30) 7).tweet.media ≠ [] :=
  c3_media_and_filters.2 exChat [[exTweet 30]] (SendEntry.mk (exTweet 30) 7) (by decide)

/-- C4: one tick's delivery order is the per-pair accepted blocks, each
reversed (so oldest-first within a subscription), emitted in reverse pair
order; if a pair's fetched list is strictly newest-first then its
delivered ids are strictly ascending; and on fetched ids `[50,40,30]`
with cursor 25 the delivery order is `30,40,50`. -/
theorem c4_oldest_first_within_subscription :
    (∀ (chat : Chat) (results : List (List Tweet)),
        (tickChat chat results).2
          = ((results.zip chat.subscriptions).map
              (fun p => (pairEntries chat p).reverse)).reverse.flatten)
  ∧ (∀ (chat : Chat) (p : List Tweet × (String × Int)),
        p.1.Pairwise (fun a b => b.id < a.id) →
        ((pairEntries chat p).reverse.map (fun e => e.tweet.id)).Pairwise (· < ·))
  ∧ ((tickChat exChat [[exTweet 50, exTweet 40, exTweet 30]]).2.map (fun e => e.tweet.id)
      = [30, 40, 50]) :=
  ⟨tickChat_order_blocks, pairEntries_reverse_ascending, by decide⟩

theorem c4_witness :
    ((pairEntries exChat ([exTweet 50, exTweet 40, exTweet 30], ("alice", 7))).reverse.map
        (fun e => e.tweet.id)).Pairwise (· < ·) :=
  c4_oldest_first_within_subscription.2.1 exChat ([exTweet 50, exTweet 40, exTweet 30],
    ("alice", 7)) (by decide)

/-- C5 counterexample: with two subscriptions in one chat, a fetch
failure for the first pair makes the whole tick raise, so nothing is
delivered for the healthy second pair, although absent the failure that
pair would have delivered its item.  This refutes per-pair isolation. -/
theorem c5_counterexample :
    forwardTickE [(cexChat, [Except.error (), Except.ok [exTweet 10]])] = Except.error ()
  ∧ forwardTickE [(cexChat, [Except.ok [], Except.ok [exTweet 10]])]
      = Except.ok [SendEntry.mk (exTweet 10) 2] :=
  ⟨rfl, rfl⟩

/-- C5 amended: a fetch failure for any (chat, subscription) pair aborts
the entire tick — no pair in that tick is delivered and no cursor is
advanced — and `subscription_loop` then sleeps 1 second and restarts the
whole loop. -/
theorem c5_amended_failure_aborts_tick :
    (∀ l : List (Chat × List (Except Unit (List Tweet))),
        (∃ p ∈ l, Except.error () ∈ p.2) → forwardTickE l = Except.error ())
  ∧ loopAction LoopExc.other = (true, 1) :=
  ⟨forwardTickE_error, rfl⟩

theorem c5_witness :
    forwardTickE [(cexChat, [Except.error (), Except.ok [exTweet 10]]),
                  (exChat, [Except.ok [exTweet 30]])] = Except.error () :=
  c5_amended_failure_aborts_tick.1
    [(cexChat, [Except.error (), Except.ok [exTweet 10]]), (exChat, [Except.ok [exTweet 30]])]
    ⟨(cexChat, [Except.error (), Except.ok [exTweet 10]]), List.mem_cons_self _ _,
      List.mem_cons_self _ _⟩

/-- C6 counterexample: the `TryAgain` signal carries no reset time, and
`subscription_loop` swallows it with no sleep at all, so for a reset time
of (say) 5 seconds the retry happens after 0 seconds, before the reset. -/
theorem c6_counterexample :
    (loopAction LoopExc.tryAgain).2 = 0 ∧ (0 : Nat) < 5 :=
  ⟨rfl, by decide⟩

/-- C6 amended: on `TryAgain` the loop retries immediately (no wait) and
re-runs the entire `forward_tweets` loop rather than a single fetch; no
reset time is consulted (`TryAgain` carries none).  Any other exception is
followed by a fixed 1-second sleep, and cancellation exits the loop. -/
theorem c6_amended_immediate_retry :
    loopAction LoopExc.tryAgain = (true, 0)
  ∧ loopAction LoopExc.other = (true, 1)
  ∧ loopAction LoopExc.cancelled = (false, 0) :=
  ⟨rfl, rfl, rfl⟩

/-- C7 counterexample: `serialize` opens the target file with mode `w`,
which truncates it in place before `json.dump` streams the new snapshot;
a crash right after the truncation leaves an empty file, which is neither
the pre-write snapshot (here `A`) nor the post-write snapshot (`BC`). -/
theorem c7_counterexample :
    ([] : List Char) ∈ serializeCrashStates ['B', 'C']
  ∧ ([] : List Char) ≠ ['A']
  ∧ ([] : List Char) ≠ ['B', 'C'] := by
  refine ⟨nil_mem_serializeCrashStates _, by decide, by decide⟩

/-- C7 amended: `serialize` writes the snapshot directly into the target
file (truncate, then stream), not via write-temp-then-replace; a crash
mid-write leaves some prefix of the new snapshot (possibly empty), so the
durable store can hold a partial snapshot and the pre-write snapshot is
lost as soon as the write starts. -/
theorem c7_amended_truncate_then_stream :
    (∀ newContent : List Char, [] ∈ serializeCrashStates newContent)
  ∧ (∀ newContent s : List Char,
        s ∈ serializeCrashStates newContent → List.IsPrefix s newContent) :=
  ⟨nil_mem_serializeCrashStates, serializeCrashStates_prefix⟩

theorem c7_witness :
    List.IsPrefix ['B'] ['B', 'C'] :=
  c7_amended_truncate_then_stream.2 ['B', 'C'] ['B'] (by decide)

/-- C8: serializing the chat map as `serialize` does and reading it back
as `deserialize` does yields the identical map — same subscriptions,
cursors and filters for every chat — and consequently an item whose id is
at or below a chat's persisted cursor is still rejected by the dedup
filter after the reload. -/
theorem c8_roundtrip_preserves_state :
    (∀ m : List (String × Chat), decodeChats (encodeChats m) = some m)
  ∧ (∀ (c c' : Chat) (fs : List String) (tweets : List Tweet) (u : Int) (t : Tweet),
        decodeChat (encodeChat c) = some c' →
        t.id ≤ lookupD c.last_sent_id (cursorKey u) 0 →
        t ∉ acceptTweets fs (lookupD c'.last_sent_id (cursorKey u) 0) tweets) := by
  refine ⟨decodeChats_encodeChats, ?_⟩
  intro c c' fs tweets u t hdec hle hmem
  rw [decodeChat_encodeChat] at hdec
  cases Option.some.inj hdec
  have := ((mem_acceptTweets _ _ _ _).mp hmem).2.2.1
  exact absurd this (not_lt.mpr hle)

theorem c8_witness :
    exTweet 20 ∉ acceptTweets [] (lookupD exChat.last_sent_id (cursorKey 7) 0) [exTweet 20] :=
  c8_roundtrip_preserves_state.2 exChat exChat [] [exTweet 20] 7 (exTweet 20)
    (decodeChat_encodeChat exChat) (by decide)

/-- C9: from an idle chat, the add-filter selection for subscription `s`
moves the chat to awaiting-filter for `s`; the next free-text message
appends that text to the filter terms of `s`, returns the chat to idle,
and touches nothing else; a further message is no longer treated as a
filter addition (one addition per episode). -/
theorem c9_filter_state_machine :
    ∀ (chat : Chat) (s text : String) (rid rid2 : Int),
      chat.awaiting_filter = "" → s ≠ "" →
      (add_filter chat s).awaiting_filter = s
    ∧ (handle_input (add_filter chat s) text rid).awaiting_filter = ""
    ∧ lookupF (handle_input (add_filter chat s) text rid).filters s
        = lookupF chat.filters s ++ [text]
    ∧ (handle_input (add_filter chat s) text rid).subscriptions = chat.subscriptions
    ∧ (handle_input (handle_input (add_filter chat s) text rid) text rid2).filters
        = (handle_input (add_filter chat s) text rid).filters := by
  intro chat s text rid rid2 hidle hs
  have h2 : handle_input (add_filter chat s) text rid
      = { chat with
            filters := setA chat.filters s (lookupF chat.filters s ++ [text]),
            awaiting_filter := "" } := by
    have hcond : (add_filter chat s).awaiting_filter ≠ "" := hs
    rw [handle_input, if_pos hcond]
    rfl
  refine ⟨rfl, by rw [h2], ?_, by rw [h2], ?_⟩
  · rw [h2]
    show lookupD (setA chat.filters s (lookupF chat.filters s ++ [text])) s []
        = lookupF chat.filters s ++ [text]
    rw [lookupD, lookupA_setA_self]
    rfl
  · rw [h2, handle_input, if_neg]
    intro hcon
    exact hcon rfl

theorem c9_witness :
    (add_filter exIdleChat "alice").awaiting_filter = "alice"
  ∧ (handle_input (add_filter exIdleChat "alice") "foo" 0).awaiting_filter = ""
  ∧ lookupF (handle_input (add_filter exIdleChat "alice") "foo" 0).filters "alice"
      = lookupF exIdleChat.filters "alice" ++ ["foo"]
  ∧ (handle_input (add_filter exIdleChat "alice") "foo" 0).subscriptions
      = exIdleChat.subscriptions
  ∧ (handle_input (handle_input (add_filter exIdleChat "alice") "foo" 0) "foo" 1).filters
      = (handle_input (add_filter exIdleChat "alice") "foo" 0).filters :=
  c9_filter_state_machine exIdleChat "alice" "foo" 0 1 rfl (by decide)

/-- C10: the dedup cursor is keyed by the feed identifier (`str(user_id)`),
not by the subscription name: the cursor consulted for a pair is the same
under any name bound to the same feed id, and once an item is delivered
for a feed id, every later accepted item for that feed id — under
whichever subscription name — has a strictly larger id. -/
theorem c10_cursor_keyed_by_feed_id :
    (∀ (chat : Chat) (n1 n2 : String) (u : Int),
        pairCursor chat (n1, u) = pairCursor chat (n2, u))
  ∧ (∀ (chat : Chat) (entries : List SendEntry) (e : SendEntry), e ∈ entries →
        ∀ (results : List (List Tweet)) (e2 : SendEntry),
          e2 ∈ buildToSend
              { chat with last_sent_id := deliverAll chat.last_sent_id entries } results →
          e2.userId = e.userId → e.tweet.id < e2.tweet.id) := by
  refine ⟨fun _ _ _ _ => rfl, ?_⟩
  intro chat entries e he results e2 he2 hu
  have h1 : lookupD (deliverAll chat.last_sent_id entries) (cursorKey e2.userId) 0
      < e2.tweet.id :=
    mem_buildToSend_cursor_lt _ results e2 he2
  have h2 : e.tweet.id
      ≤ lookupD (deliverAll chat.last_sent_id entries) (cursorKey e.userId) 0 := by
    rw [lookupD_deliverAll]
    exact id_le_foldl_stepf entries e he _
  rw [hu] at h1
  exact lt_of_le_of_lt h2 h1

theorem c10_witness :
    (SendEntry.mk (exTweet 30) 7).tweet.id < (SendEntry.mk (exTweet 50) 7).tweet.id :=
  c10_cursor_keyed_by_feed_id.2 exChatW [SendEntry.mk (exTweet 30) 7]
    (SendEntry.mk (exTweet 30) 7) (by decide) [[exTweet 50]]
    (SendEntry.mk (exTweet 50) 7) (by decide) rfl

end Twittogram
